import Mathlib

/-!
Shallow embedding of the DNS-server codebase (Python) in Lean 4.

Conventions:
* Python `bytes` values are modelled as `List Nat` (each element a byte value
  0–255; theorems add explicit `< 256` bounds where the property needs them).
* Python `str` values that originate from `bytes.decode()` are represented by
  their UTF-8 byte sequences (`List Nat`), so a decoded label is the byte list
  that was decoded; `bytes.decode()` is modelled as a UTF-8 validity check
  that returns those bytes unchanged on success and a `decodeError` on failure,
  mirroring `UnicodeDecodeError`.
* Fallible Python operations (IndexError on `buf[i]`, struct.error,
  OverflowError from `int.to_bytes`, UnicodeDecodeError) return `Except PyErr`.
* Python while-loops that advance a cursor are modelled with an explicit fuel
  parameter; `outOfFuel` marks fuel exhaustion, and termination theorems show
  sufficient fuel is never exhausted.
-/

/-- Failure conditions of the modelled Python code. -/
inductive PyErr where
  /-- `IndexError` from `buf[i]` with `i` out of range. -/
  | indexError : PyErr
  /-- `UnicodeDecodeError` from `bytes.decode()` on invalid UTF-8. -/
  | decodeError : PyErr
  /-- Fuel exhaustion of the loop model (never reached with enough fuel). -/
  | outOfFuel : PyErr
  /-- `struct.error` from unpacking fewer than 12 header bytes; the spec
  names this condition `TruncatedHeader`. -/
  | truncatedHeader : PyErr
  /-- `OverflowError` from `int.to_bytes()` on a value above 255. -/
  | overflowError : PyErr
  /-- `struct.error` from packing a value outside its field width. -/
  | structError : PyErr
deriving DecidableEq

deriving instance DecidableEq for Except

/-- Python slice `buf[a:b]` on bytes: clamps at both ends, never fails. -/
def pySlice (buf : List Nat) (a b : Nat) : List Nat :=
  (buf.drop a).take (b - a)

/-- Python `int.from_bytes(bs, 'big')` (also the 3.11+ default byte order). -/
def bytesBE (bs : List Nat) : Nat :=
  bs.foldl (fun acc b => acc * 256 + b) 0

/-- A UTF-8 continuation byte (`0x80`–`0xBF`). -/
def utf8Cont (b : Nat) : Bool :=
  decide (0x80 ≤ b) && decide (b ≤ 0xBF)

/-- UTF-8 validity scanner: `pending` continuation bytes still expected, the
next continuation byte constrained to `lo`–`hi` (tightened after the lead
byte to reject overlong forms, surrogates and values above U+10FFFF, as
Python's strict `bytes.decode()` does). -/
def utf8ValidAux : Nat → Nat → Nat → List Nat → Bool
  | 0, _, _, [] => true
  | _ + 1, _, _, [] => false
  | 0, _, _, b :: rest =>
      if b ≤ 0x7F then utf8ValidAux 0 0 0 rest
      else if b < 0xC2 then false
      else if b ≤ 0xDF then utf8ValidAux 1 0x80 0xBF rest
      else if b = 0xE0 then utf8ValidAux 2 0xA0 0xBF rest
      else if b = 0xED then utf8ValidAux 2 0x80 0x9F rest
      else if b ≤ 0xEF then utf8ValidAux 2 0x80 0xBF rest
      else if b = 0xF0 then utf8ValidAux 3 0x90 0xBF rest
      else if b = 0xF4 then utf8ValidAux 3 0x80 0x8F rest
      else if b ≤ 0xF4 then utf8ValidAux 3 0x80 0xBF rest
      else false
  | pending + 1, lo, hi, b :: rest =>
      if lo ≤ b && b ≤ hi then utf8ValidAux pending 0x80 0xBF rest else false

/-- UTF-8 validity of a byte sequence, as enforced by Python's strict
`bytes.decode()`. -/
def utf8Valid (bs : List Nat) : Bool := utf8ValidAux 0 0 0 bs

/-- Python `bs.decode()`: the decoded string, represented by its UTF-8 bytes,
or a `UnicodeDecodeError`. -/
def pyDecode (bs : List Nat) : Except PyErr (List Nat) :=
  if utf8Valid bs then .ok bs else .error .decodeError

/-- The wire bytes of an uncompressed name: one length byte per label followed
by the label bytes, terminated by a zero byte (raw form, no range checks). -/
def nameWire : List (List Nat) → List Nat
  | [] => [0]
  | l :: ls => (l.length :: l) ++ nameWire ls

/-- `struct.pack('!B', len(label)) + label.encode()` for one label, from the
name loop shared by `DNSquestion.pack` / `DNSanswer.pack`: fails with
`struct.error` when the length does not fit one byte. -/
def labelBytes (l : List Nat) : Except PyErr (List Nat) :=
  if l.length ≤ 255 then .ok (l.length :: l) else .error .structError

/-- The name-encoding loop of `DNSquestion.pack` (src/app/dns_message/dns_question.py,
identical in src/app/dnsmessage.py and `DNSanswer.pack`): length-prefixed labels
followed by the terminating zero byte. -/
def nameBytes : List (List Nat) → Except PyErr (List Nat)
  | [] => .ok [0]
  | l :: ls => do
    let a ← labelBytes l
    let r ← nameBytes ls
    .ok (a ++ r)

/-- Fuel-indexed model of `parse_dns_labels` (src/app/dns_utils.py).  Each
iteration reads the length byte at `buf_ptr`; a zero byte ends the name; a
byte with both high bits set is a compression pointer whose 14-bit target is
read from two bytes, after which one label is taken from the jump target and
scanning resumes two bytes past the pointer; otherwise the label bytes follow
the length byte. -/
def parseDnsLabelsF : Nat → List Nat → Nat → Except PyErr (List (List Nat) × Nat)
  | 0, _, _ => .error .outOfFuel
  | fuel + 1, buf, buf_ptr =>
    match buf.get? buf_ptr with
    | none => .error .indexError
    | some strlen =>
      if strlen = 0 then
        .ok ([], buf_ptr + 1)
      else if strlen &&& 0xC0 = 0xC0 then
        let jump_addr := bytesBE (pySlice buf buf_ptr (buf_ptr + 2)) ^^^ 0xC000
        match buf.get? jump_addr with
        | none => .error .indexError
        | some strlen2 =>
          match pyDecode (pySlice buf (jump_addr + 1) (jump_addr + 1 + strlen2)) with
          | .error e => .error e
          | .ok lbl =>
            (parseDnsLabelsF fuel buf (buf_ptr + 2)).map fun r => (lbl :: r.1, r.2)
      else
        match pyDecode (pySlice buf (buf_ptr + 1) (buf_ptr + 1 + strlen)) with
        | .error e => .error e
        | .ok lbl =>
          (parseDnsLabelsF fuel buf (buf_ptr + strlen + 1)).map fun r => (lbl :: r.1, r.2)

/-- `parse_dns_labels` (src/app/dns_utils.py) with fuel sufficient for any
input (the cursor strictly increases and must stay in bounds to iterate). -/
def parse_dns_labels (buf : List Nat) (buf_ptr : Nat) :
    Except PyErr (List (List Nat) × Nat) :=
  parseDnsLabelsF (buf.length + 1) buf buf_ptr

/-- The question record of src/app/dns_message/dns_question.py: a domain name
(labels as decoded strings, represented by their bytes), a record type and a
class. -/
structure DNSquestion where
  name : List (List Nat)
  record_type : Nat
  clazz : Nat
deriving DecidableEq

/-- Fuel-indexed model of the name loop of `DNSquestion.from_message`
(src/app/dns_message/dns_question.py).  The `while buf[buf_ptr] != '\x00'`
guard compares an int to a str and is therefore always true in Python, but
evaluating `buf[buf_ptr]` can raise `IndexError`.  A compression pointer
contributes exactly one label from the jump target and then advances the
cursor by 2 (the code overwrites `strlen` with 1 before `buf_ptr += strlen + 1`);
an ordinary length byte contributes the following bytes (an empty label when
the length byte is 0).  After each iteration the byte at the new cursor is
inspected: a zero byte ends the loop with the cursor moved past it. -/
def fromMessageLoopF : Nat → List Nat → Nat → Except PyErr (List (List Nat) × Nat)
  | 0, _, _ => .error .outOfFuel
  | fuel + 1, buf, buf_ptr =>
    match buf.get? buf_ptr with
    | none => .error .indexError
    | some strlen =>
      if strlen &&& 0xC0 = 0xC0 then
        let jump_addr := bytesBE (pySlice buf buf_ptr (buf_ptr + 2)) ^^^ 0xC000
        match buf.get? jump_addr with
        | none => .error .indexError
        | some strlen2 =>
          match pyDecode (pySlice buf (jump_addr + 1) (jump_addr + 1 + strlen2)) with
          | .error e => .error e
          | .ok lbl =>
            match buf.get? (buf_ptr + 2) with
            | none => .error .indexError
            | some 0 => .ok ([lbl], buf_ptr + 3)
            | some _ =>
              (fromMessageLoopF fuel buf (buf_ptr + 2)).map fun r => (lbl :: r.1, r.2)
      else
        match pyDecode (pySlice buf (buf_ptr + 1) (buf_ptr + 1 + strlen)) with
        | .error e => .error e
        | .ok lbl =>
          match buf.get? (buf_ptr + strlen + 1) with
          | none => .error .indexError
          | some 0 => .ok ([lbl], buf_ptr + strlen + 2)
          | some _ =>
            (fromMessageLoopF fuel buf (buf_ptr + strlen + 1)).map fun r => (lbl :: r.1, r.2)

/-- `DNSquestion.from_message` (src/app/dns_message/dns_question.py): parses
the name with the loop above, then returns the question with record type and
class hardcoded to `RecordType.A.value = 1` and `RecordClass.IN.value = 1`
(the bytes on the wire are skipped, not read), and the cursor advanced by 4
past the end of the name. -/
def DNSquestion.from_message (buf : List Nat) (buf_ptr : Nat) :
    Except PyErr (DNSquestion × Nat) :=
  (fromMessageLoopF (buf.length + 1) buf buf_ptr).map fun r =>
    ({ name := r.1, record_type := 1, clazz := 1 }, r.2 + 4)

/-- The two-question compressed test message of
src/test/dns_message/test_dns_question.py (query for `abc.longassdomainname.com`
and `def` compressed with a pointer to offset 0x10). -/
def compressedTestBuf : List Nat :=
  [134, 45, 1, 0, 0, 2, 0, 0, 0, 0, 0, 0,
   3, 97, 98, 99,
   17, 108, 111, 110, 103, 97, 115, 115, 100, 111, 109, 97, 105, 110, 110, 97, 109, 101,
   3, 99, 111, 109,
   0, 0, 1, 0, 1,
   3, 100, 101, 102,
   192, 16,
   0, 1, 0, 1]

/-- The header record shared by src/app/dns_message/dns_header.py and
src/app/dnsmessage.py (same field list in both files). -/
structure DNSheader where
  packet_identifier : Nat
  query_indicator : Nat
  opcode : Nat
  authoritative_answer : Nat
  truncation : Nat
  recursion_desired : Nat
  recursion_available : Nat
  z_reserved : Nat
  response_code : Nat
  question_count : Nat
  answer_count : Nat
  auth_rec_count : Nat
  additional_rec_count : Nat
deriving DecidableEq

/-- `DNSheader.from_message` (src/app/dns_message/dns_header.py).
`struct.unpack('!HccHHHH', message[:12])` raises `struct.error` when fewer
than 12 bytes are available (the spec's `TruncatedHeader`).  Byte 3 is
bit-unpacked with shifts; the response code is recomputed from the opcode
(0 for a standard query, 4 otherwise) instead of being read from byte 4;
the constructor is called with the literal 1 for the query indicator and
with `an_count = q_count`. -/
def DNSheader.from_message : List Nat → Except PyErr DNSheader
  | b0 :: b1 :: byte3 :: byte4 :: b4 :: b5 :: _b6 :: _b7 :: b8 :: b9 :: b10 :: b11 :: _ =>
    let packet_identifier := b0 * 256 + b1
    let q_count := b4 * 256 + b5
    let ns_count := b8 * 256 + b9
    let ar_count := b10 * 256 + b11
    let opcode := (0b01111000 &&& byte3) >>> 3
    let authoritative_answer := (0b00000100 &&& byte3) >>> 2
    let truncation := (0b00000010 &&& byte3) >>> 1
    let recursion_desired := 0b00000001 &&& byte3
    let recursion_avail := (0b10000000 &&& byte4) >>> 7
    let z_reserved := (0b01110000 &&& byte4) >>> 4
    let response_code := if opcode = 0 then 0 else 4
    let an_count := q_count
    .ok ⟨packet_identifier, 1, opcode, authoritative_answer, truncation,
      recursion_desired, recursion_avail, z_reserved, response_code,
      q_count, an_count, ns_count, ar_count⟩
  | _ => .error .truncatedHeader

/-- `DNSheader.pack` (src/app/dns_message/dns_header.py): byte 3 and byte 4
are built by cumulative ORs of the shifted flag fields, converted with
`int.to_bytes()` (default length 1, so an `OverflowError` above 255), and the
16-bit fields are packed big-endian by `struct.pack` (a `struct.error` when
out of range). -/
def DNSheader.pack (h : DNSheader) : Except PyErr (List Nat) :=
  let c3 := 0
  let c3 := c3 ||| (h.query_indicator <<< 7)
  let c3 := c3 ||| (h.opcode <<< 3)
  let c3 := c3 ||| (h.authoritative_answer <<< 2)
  let c3 := c3 ||| (h.truncation <<< 1)
  let c3 := c3 ||| h.recursion_desired
  if 255 < c3 then .error .overflowError else
  let c4 := 0
  let c4 := c4 ||| (h.recursion_available <<< 7)
  let c4 := c4 ||| (h.z_reserved <<< 4)
  let c4 := c4 ||| h.response_code
  if 255 < c4 then .error .overflowError else
  if h.packet_identifier < 65536 ∧ h.question_count < 65536 ∧ h.answer_count < 65536 ∧
      h.auth_rec_count < 65536 ∧ h.additional_rec_count < 65536 then
    .ok [h.packet_identifier / 256, h.packet_identifier % 256, c3, c4,
      h.question_count / 256, h.question_count % 256,
      h.answer_count / 256, h.answer_count % 256,
      h.auth_rec_count / 256, h.auth_rec_count % 256,
      h.additional_rec_count / 256, h.additional_rec_count % 256]
  else .error .structError

/-- The answer record of src/app/dnsmessage.py (also dns_answer.py): name,
type, class, TTL, rdata length and rdata (a Python str, stored as bytes). -/
structure DNSanswer where
  name : List (List Nat)
  record_type : Nat
  clazz : Nat
  ttl : Nat
  rdlength : Nat
  rdata : List Nat
deriving DecidableEq

namespace Dnsmessage

/-- `DNSheader.from_message` of src/app/dnsmessage.py: unlike
dns_message/dns_header.py, the flag fields keep their masked (unshifted)
values, the response code is read from byte 4, and the answer count is the
hardcoded literal 1 (`1, #an_count`). -/
def header_from_message : List Nat → Except PyErr DNSheader
  | b0 :: b1 :: byte3 :: byte4 :: b4 :: b5 :: _b6 :: _b7 :: b8 :: b9 :: b10 :: b11 :: _ =>
    let packet_identifier := b0 * 256 + b1
    let q_count := b4 * 256 + b5
    let ns_count := b8 * 256 + b9
    let ar_count := b10 * 256 + b11
    let query_indicator := 0b10000000 &&& byte3
    let opcode := 0b01111000 &&& byte3
    let authoritative_answer := 0b00000100 &&& byte3
    let truncation := 0b00000010 &&& byte3
    let recursion_desired := 0b00000001 &&& byte3
    let recursion_avail := 0b10000000 &&& byte4
    let z_reserved := 0b01110000 &&& byte4
    let response_code := 0b00001111 &&& byte4
    .ok ⟨packet_identifier, query_indicator, opcode, authoritative_answer, truncation,
      recursion_desired, recursion_avail, z_reserved, response_code,
      q_count, 1, ns_count, ar_count⟩
  | _ => .error .truncatedHeader

/-- `DNSheader.pack` of src/app/dnsmessage.py: byte 3 and byte 4 are each
assigned repeatedly (each assignment overwrites the previous one), so the
final values are `0b10000000 | recursion_desired` and
`0b11110000 | response_code`; `int.to_bytes` overflows above 255 and
`struct.pack('!HccHHHH', ...)` range-checks the 16-bit fields. -/
def header_pack (h : DNSheader) : Except PyErr (List Nat) :=
  let c3 := 0b00000001 ||| h.query_indicator
  let c3 := 0b00011110 ||| h.opcode
  let c3 := 0b00100000 ||| h.authoritative_answer
  let c3 := 0b01000000 ||| h.truncation
  let c3 := 0b10000000 ||| h.recursion_desired
  if 255 < c3 then .error .overflowError else
  let c4 := 0
  let c4 := 0b00000001 ||| h.recursion_available
  let c4 := 0b00001110 ||| h.z_reserved
  let c4 := 0b11110000 ||| h.response_code
  if 255 < c4 then .error .overflowError else
  if h.packet_identifier < 65536 ∧ h.question_count < 65536 ∧ h.answer_count < 65536 ∧
      h.auth_rec_count < 65536 ∧ h.additional_rec_count < 65536 then
    .ok [h.packet_identifier / 256, h.packet_identifier % 256, c3, c4,
      h.question_count / 256, h.question_count % 256,
      h.answer_count / 256, h.answer_count % 256,
      h.auth_rec_count / 256, h.auth_rec_count % 256,
      h.additional_rec_count / 256, h.additional_rec_count % 256]
  else .error .structError

/-- The UTF-8 bytes of the hardcoded name `['codecrafters', 'io']`. -/
def ccio : List (List Nat) :=
  [[99, 111, 100, 101, 99, 114, 97, 102, 116, 101, 114, 115], [105, 111]]

/-- `DNSquestion.from_message` of src/app/dnsmessage.py: a TODO stub that
ignores the buffer and returns the hardcoded question
`(['codecrafters', 'io'], 1, 1)`. -/
def question_from_message (_message : List Nat) : DNSquestion :=
  ⟨ccio, 1, 1⟩

/-- `DNSquestion.pack` of src/app/dnsmessage.py: the encoded name followed by
`struct.pack('!HH', record_type, clazz)`. -/
def question_pack (q : DNSquestion) : Except PyErr (List Nat) := do
  let n ← nameBytes q.name
  if q.record_type < 65536 ∧ q.clazz < 65536 then
    .ok (n ++ [q.record_type / 256, q.record_type % 256, q.clazz / 256, q.clazz % 256])
  else .error .structError

/-- The bytes of the Python literal `'8.8.8.8'`. -/
def rdataStr : List Nat := [56, 46, 56, 46, 56, 46, 56]

/-- `DNSanswer.from_message` of src/app/dnsmessage.py: a hardcoded stub with
name `['codecrafters', 'io']`, type A, class IN, TTL 60, rdata the string
`'8.8.8.8'` and rdlength `len('8.8.8.8') - 3 = 4`. -/
def answer_from_message (_message : List Nat) : DNSanswer :=
  ⟨ccio, 1, 1, 60, rdataStr.length - 3, rdataStr⟩

/-- `DNSanswer.pack` of src/app/dnsmessage.py: the encoded name, the fixed
fields `struct.pack('!HHIH', type, class, ttl, rdlength)`, then the rdata
bytes built from the literal `'8.8.8.8'.split('.')` (the field `self.rdata`
is ignored), i.e. `[8, 8, 8, 8]`. -/
def answer_pack (a : DNSanswer) : Except PyErr (List Nat) := do
  let n ← nameBytes a.name
  let rdata_encoded := [8, 8, 8, 8]
  if a.record_type < 65536 ∧ a.clazz < 65536 ∧ a.ttl < 4294967296 ∧ a.rdlength < 65536 then
    .ok (n ++ [a.record_type / 256, a.record_type % 256, a.clazz / 256, a.clazz % 256,
      a.ttl / 16777216 % 256, a.ttl / 65536 % 256, a.ttl / 256 % 256, a.ttl % 256,
      a.rdlength / 256, a.rdlength % 256] ++ rdata_encoded)
  else .error .structError

/-- `DNSmessage` of src/app/dnsmessage.py: exactly one header, one question
and one answer. -/
structure DNSmessage where
  header : DNSheader
  question : DNSquestion
  answer : DNSanswer
deriving DecidableEq

/-- `DNSmessage.from_message` of src/app/dnsmessage.py: decode the header,
then the (stubbed) question and answer from the same buffer. -/
def from_message (message : List Nat) : Except PyErr DNSmessage :=
  (header_from_message message).map fun h =>
    ⟨h, question_from_message message, answer_from_message message⟩

/-- `DNSmessage.pack` of src/app/dnsmessage.py: header bytes, then the bytes
of the single question, then the bytes of the single answer. -/
def pack (m : DNSmessage) : Except PyErr (List Nat) := do
  let hb ← header_pack m.header
  let qb ← question_pack m.question
  let ab ← answer_pack m.answer
  .ok (hb ++ qb ++ ab)

/-- The fixed serialized question `codecrafters.io, type 1, class 1`. -/
def fixedQuestionBytes : List Nat :=
  [12, 99, 111, 100, 101, 99, 114, 97, 102, 116, 101, 114, 115, 2, 105, 111, 0,
   0, 1, 0, 1]

/-- The fixed serialized answer: `codecrafters.io`, type 1, class 1, TTL 60,
rdlength 4, rdata `8.8.8.8`. -/
def fixedAnswerBytes : List Nat :=
  [12, 99, 111, 100, 101, 99, 114, 97, 102, 116, 101, 114, 115, 2, 105, 111, 0,
   0, 1, 0, 1, 0, 0, 0, 60, 0, 4, 8, 8, 8, 8]

end Dnsmessage

/-- A query for `www.example.com`, type A, class IN, with id 1234 and

question count 1. -/
def exampleQuery : List Nat :=
  [4, 210, 1, 0, 0, 1, 0, 0, 0, 0, 0, 0,
   3, 119, 119, 119, 7, 101, 120, 97, 109, 112, 108, 101, 3, 99, 111, 109, 0,
   0, 1, 0, 1]

/-- The 19-byte pointer-resolution buffer of the spec: 12 zero bytes, the
name `abc`, then a compression pointer to offset 12. -/
def pointerTestBuf : List Nat :=
  [0, 0, 0, 0, 0, 0, 0, 0, 0, 0, 0, 0, 3, 97, 98, 99, 0, 192, 12]

/-- An ASCII byte is consumed without changing the scanner state. -/
theorem utf8Valid_cons_ascii (b : Nat) (rest : List Nat) (hb : b ≤ 0x7F) :
    utf8Valid (b :: rest) = utf8Valid rest := by
  unfold utf8Valid
  rw [utf8ValidAux.eq_def]
  dsimp only
  rw [if_pos hb]

/-- ASCII byte sequences are valid UTF-8. -/
theorem utf8Valid_of_ascii : ∀ bs : List Nat, (∀ b ∈ bs, b < 128) → utf8Valid bs = true := by
  intro bs h
  induction bs with
  | nil => rfl
  | cons b rest ih =>
    have hb : b ≤ 0x7F := by
      have := h b (List.mem_cons_self b rest)
      omega
    rw [utf8Valid_cons_ascii b rest hb]
    exact ih (fun x hx => h x (List.mem_cons_of_mem b hx))

/-- When every label length fits in one byte the packed name is `nameWire`. -/
theorem nameBytes_eq_wire :
    ∀ L : List (List Nat), (∀ l ∈ L, l.length ≤ 255) → nameBytes L = .ok (nameWire L) := by
  intro L h
  induction L with
  | nil => rfl
  | cons l ls ih =>
    have hl : l.length ≤ 255 := h l (List.mem_cons_self l ls)
    simp only [nameBytes, labelBytes, if_pos hl, nameWire, bind, Except.bind,
      ih (fun x hx => h x (List.mem_cons_of_mem l hx))]

example : parse_dns_labels [3, 97, 98, 99, 0] 0 = .ok ([[97, 98, 99]], 5) := by decide

example : parse_dns_labels [192, 0, 0] 0 = .ok ([[0, 0]], 3) := by decide

example : parse_dns_labels [1, 255, 0] 0 = .error .decodeError := by decide

/-- An in-range read: `buf.get? ptr = some v` forces `ptr < buf.length`. -/
theorem get?_lt_length {buf : List Nat} {ptr v : Nat} (h : buf.get? ptr = some v) :
    ptr < buf.length := by
  by_contra hle
  rw [List.get?_eq_none.mpr (by omega)] at h
  exact Option.noConfusion h

/-- One parser step when the cursor is out of bounds. -/
theorem parseF_step_oob {buf : List Nat} {ptr : Nat} (f : Nat)
    (h : buf.get? ptr = none) :
    parseDnsLabelsF (f + 1) buf ptr = .error .indexError := by
  simp only [parseDnsLabelsF]
  rw [h]

/-- One parser step at a zero length byte: the name ends. -/
theorem parseF_step_zero {buf : List Nat} {ptr : Nat} (f : Nat)
    (h : buf.get? ptr = some 0) :
    parseDnsLabelsF (f + 1) buf ptr = .ok ([], ptr + 1) := by
  simp only [parseDnsLabelsF]
  rw [h]
  simp

/-- One parser step at a compression pointer whose jump target is out of
bounds. -/
theorem parseF_step_jump_oob {buf : List Nat} {ptr strlen : Nat} (f : Nat)
    (h : buf.get? ptr = some strlen) (hs : strlen ≠ 0) (hc : strlen &&& 0xC0 = 0xC0)
    (hj : buf.get? (bytesBE (pySlice buf ptr (ptr + 2)) ^^^ 0xC000) = none) :
    parseDnsLabelsF (f + 1) buf ptr = .error .indexError := by
  simp only [parseDnsLabelsF]
  rw [h]
  dsimp only
  simp only [if_neg hs, if_pos hc]
  rw [hj]

/-- One parser step at a compression pointer whose target label fails to
decode. -/
theorem parseF_step_jump_decodeErr {buf : List Nat} {ptr strlen strlen2 : Nat} {e : PyErr} (f : Nat)
    (h : buf.get? ptr = some strlen) (hs : strlen ≠ 0) (hc : strlen &&& 0xC0 = 0xC0)
    (hj : buf.get? (bytesBE (pySlice buf ptr (ptr + 2)) ^^^ 0xC000) = some strlen2)
    (hd : pyDecode (pySlice buf ((bytesBE (pySlice buf ptr (ptr + 2)) ^^^ 0xC000) + 1)
      ((bytesBE (pySlice buf ptr (ptr + 2)) ^^^ 0xC000) + 1 + strlen2)) = .error e) :
    parseDnsLabelsF (f + 1) buf ptr = .error e := by
  simp only [parseDnsLabelsF]
  rw [h]
  dsimp only
  simp only [if_neg hs, if_pos hc]
  rw [hj]
  dsimp only
  rw [hd]

/-- One parser step at a compression pointer: one label is taken from the
jump target and scanning resumes two bytes past the pointer. -/
theorem parseF_step_jump_ok {buf : List Nat} {ptr strlen strlen2 : Nat} {lbl : List Nat} (f : Nat)
    (h : buf.get? ptr = some strlen) (hs : strlen ≠ 0) (hc : strlen &&& 0xC0 = 0xC0)
    (hj : buf.get? (bytesBE (pySlice buf ptr (ptr + 2)) ^^^ 0xC000) = some strlen2)
    (hd : pyDecode (pySlice buf ((bytesBE (pySlice buf ptr (ptr + 2)) ^^^ 0xC000) + 1)
      ((bytesBE (pySlice buf ptr (ptr + 2)) ^^^ 0xC000) + 1 + strlen2)) = .ok lbl) :
    parseDnsLabelsF (f + 1) buf ptr =
      (parseDnsLabelsF f buf (ptr + 2)).map fun r => (lbl :: r.1, r.2) := by
  simp only [parseDnsLabelsF]
  rw [h]
  dsimp only
  simp only [if_neg hs, if_pos hc]
  rw [hj]
  dsimp only
  rw [hd]

/-- One parser step at an ordinary label whose bytes fail to decode. -/
theorem parseF_step_label_decodeErr {buf : List Nat} {ptr strlen : Nat} {e : PyErr} (f : Nat)
    (h : buf.get? ptr = some strlen) (hs : strlen ≠ 0) (hc : ¬strlen &&& 0xC0 = 0xC0)
    (hd : pyDecode (pySlice buf (ptr + 1) (ptr + 1 + strlen)) = .error e) :
    parseDnsLabelsF (f + 1) buf ptr = .error e := by
  simp only [parseDnsLabelsF]
  rw [h]
  dsimp only
  simp only [if_neg hs, if_neg hc]
  rw [hd]

/-- One parser step at an ordinary label: the label is consumed and scanning
resumes just past it. -/
theorem parseF_step_label_ok {buf : List Nat} {ptr strlen : Nat} {lbl : List Nat} (f : Nat)
    (h : buf.get? ptr = some strlen) (hs : strlen ≠ 0) (hc : ¬strlen &&& 0xC0 = 0xC0)
    (hd : pyDecode (pySlice buf (ptr + 1) (ptr + 1 + strlen)) = .ok lbl) :
    parseDnsLabelsF (f + 1) buf ptr =
      (parseDnsLabelsF f buf (ptr + strlen + 1)).map fun r => (lbl :: r.1, r.2) := by
  simp only [parseDnsLabelsF]
  rw [h]
  dsimp only
  simp only [if_neg hs, if_neg hc]
  rw [hd]

/-- `pyDecode` only ever fails with `decodeError`. -/
theorem pyDecode_error_eq {bs : List Nat} {e : PyErr} (h : pyDecode bs = .error e) :
    e = .decodeError := by
  unfold pyDecode at h
  split at h
  · exact Except.noConfusion h
  · injection h with h2
    exact h2.symm

/-- The fuel-indexed label parser is stable once the fuel exceeds the number
of bytes remaining at the cursor: every iteration that recurses strictly
advances the cursor and requires it to be in bounds. -/
theorem parseDnsLabelsF_stable : ∀ (fuel fuel' : Nat) (buf : List Nat) (ptr : Nat),
    buf.length - ptr < fuel → buf.length - ptr < fuel' →
    parseDnsLabelsF fuel buf ptr = parseDnsLabelsF fuel' buf ptr := by
  intro fuel
  induction fuel with
  | zero => intro fuel' buf ptr h _; exact absurd h (Nat.not_lt_zero _)
  | succ f ih =>
    intro fuel' buf ptr h h'
    cases fuel' with
    | zero => exact absurd h' (Nat.not_lt_zero _)
    | succ f' =>
      cases hg : buf.get? ptr with
      | none => rw [parseF_step_oob f hg, parseF_step_oob f' hg]
      | some strlen =>
        have hlt : ptr < buf.length := get?_lt_length hg
        by_cases h0 : strlen = 0
        · subst h0
          rw [parseF_step_zero f hg, parseF_step_zero f' hg]
        · by_cases hc : strlen &&& 0xC0 = 0xC0
          · cases hj : buf.get? (bytesBE (pySlice buf ptr (ptr + 2)) ^^^ 0xC000) with
            | none => rw [parseF_step_jump_oob f hg h0 hc hj, parseF_step_jump_oob f' hg h0 hc hj]
            | some strlen2 =>
              cases hd : pyDecode (pySlice buf ((bytesBE (pySlice buf ptr (ptr + 2)) ^^^ 0xC000) + 1)
                  ((bytesBE (pySlice buf ptr (ptr + 2)) ^^^ 0xC000) + 1 + strlen2)) with
              | error e =>
                rw [parseF_step_jump_decodeErr f hg h0 hc hj hd,
                  parseF_step_jump_decodeErr f' hg h0 hc hj hd]
              | ok lbl =>
                rw [parseF_step_jump_ok f hg h0 hc hj hd, parseF_step_jump_ok f' hg h0 hc hj hd,
                  ih f' buf (ptr + 2) (by omega) (by omega)]
          · cases hd : pyDecode (pySlice buf (ptr + 1) (ptr + 1 + strlen)) with
            | error e =>
              rw [parseF_step_label_decodeErr f hg h0 hc hd,
                parseF_step_label_decodeErr f' hg h0 hc hd]
            | ok lbl =>
              have h1 : 1 ≤ strlen := by omega
              rw [parseF_step_label_ok f hg h0 hc hd, parseF_step_label_ok f' hg h0 hc hd,
                ih f' buf (ptr + strlen + 1) (by omega) (by omega)]

/-- With fuel exceeding the bytes remaining, the label parser never runs out
of fuel: it reaches a result or a real indexing/decoding error. -/
theorem parseDnsLabelsF_ne_outOfFuel : ∀ (fuel : Nat) (buf : List Nat) (ptr : Nat),
    buf.length - ptr < fuel →
    parseDnsLabelsF fuel buf ptr ≠ .error .outOfFuel := by
  intro fuel
  induction fuel with
  | zero => intro buf ptr h; exact absurd h (Nat.not_lt_zero _)
  | succ f ih =>
    intro buf ptr h
    cases hg : buf.get? ptr with
    | none => rw [parseF_step_oob f hg]; simp
    | some strlen =>
      have hlt : ptr < buf.length := get?_lt_length hg
      by_cases h0 : strlen = 0
      · subst h0
        rw [parseF_step_zero f hg]
        simp
      · by_cases hc : strlen &&& 0xC0 = 0xC0
        · cases hj : buf.get? (bytesBE (pySlice buf ptr (ptr + 2)) ^^^ 0xC000) with
          | none => rw [parseF_step_jump_oob f hg h0 hc hj]; simp
          | some strlen2 =>
            cases hd : pyDecode (pySlice buf ((bytesBE (pySlice buf ptr (ptr + 2)) ^^^ 0xC000) + 1)
                ((bytesBE (pySlice buf ptr (ptr + 2)) ^^^ 0xC000) + 1 + strlen2)) with
            | error e =>
              rw [parseF_step_jump_decodeErr f hg h0 hc hj hd, pyDecode_error_eq hd]
              simp
            | ok lbl =>
              rw [parseF_step_jump_ok f hg h0 hc hj hd]
              cases hr : parseDnsLabelsF f buf (ptr + 2) with
              | ok v => simp [Except.map]
              | error e =>
                have hne : e ≠ .outOfFuel := by
                  intro he
                  exact ih buf (ptr + 2) (by omega) (he ▸ hr)
                simp only [Except.map]
                intro hcontra
                injection hcontra with h2
                exact hne h2
        · cases hd : pyDecode (pySlice buf (ptr + 1) (ptr + 1 + strlen)) with
          | error e =>
            rw [parseF_step_label_decodeErr f hg h0 hc hd, pyDecode_error_eq hd]
            simp
          | ok lbl =>
            have h1 : 1 ≤ strlen := by omega
            rw [parseF_step_label_ok f hg h0 hc hd]
            cases hr : parseDnsLabelsF f buf (ptr + strlen + 1) with
            | ok v => simp [Except.map]
            | error e =>
              have hne : e ≠ .outOfFuel := by
                intro he
                exact ih buf (ptr + strlen + 1) (by omega) (he ▸ hr)
              simp only [Except.map]
              intro hcontra
              injection hcontra with h2
              exact hne h2

/-- Reading at the boundary of a prefix yields the first following element. -/
theorem get?_append_at {pre rest : List Nat} {x : Nat} :
    (pre ++ x :: rest).get? pre.length = some x := by
  rw [List.get?_eq_getElem?, List.getElem?_append_right (Nat.le_refl _)]
  simp

/-- A mask of a small length byte never looks like a compression pointer. -/
theorem small_not_pointer {n : Nat} (h : n ≤ 63) : ¬n &&& 0xC0 = 0xC0 := by
  intro hc
  have : n &&& 0xC0 ≤ n := Nat.and_le_left
  omega

/-- Parsing an uncompressed name written by the encoder, placed after any
prefix and before any suffix, consumes exactly the name bytes and returns
exactly the encoded labels. -/
theorem parseF_nameWire :
    ∀ (L : List (List Nat)) (pre post : List Nat) (fuel : Nat),
      (∀ l ∈ L, 1 ≤ l.length ∧ l.length ≤ 63 ∧ ∀ b ∈ l, b < 128) →
      L.length < fuel →
      parseDnsLabelsF fuel (pre ++ nameWire L ++ post) pre.length =
        .ok (L, pre.length + (nameWire L).length) := by
  intro L
  induction L with
  | nil =>
    intro pre post fuel _ hf
    cases fuel with
    | zero => omega
    | succ f =>
      have hg : (pre ++ nameWire [] ++ post).get? pre.length = some 0 := by
        simp only [nameWire, List.append_assoc, List.singleton_append]
        exact get?_append_at
      rw [parseF_step_zero f hg]
      simp [nameWire]
  | cons l ls ih =>
    intro pre post fuel hv hf
    obtain ⟨h1, h63, hascii⟩ := hv l (List.mem_cons_self l ls)
    cases fuel with
    | zero => omega
    | succ f =>
      have hbufeq : pre ++ nameWire (l :: ls) ++ post =
          pre ++ l.length :: (l ++ (nameWire ls ++ post)) := by
        simp [nameWire]
      have hg : (pre ++ nameWire (l :: ls) ++ post).get? pre.length = some l.length := by
        rw [hbufeq]; exact get?_append_at
      have hs : l.length ≠ 0 := by omega
      have hc : ¬l.length &&& 0xC0 = 0xC0 := small_not_pointer h63
      have hdrop : (pre ++ nameWire (l :: ls) ++ post).drop (pre.length + 1) =
          l ++ (nameWire ls ++ post) := by
        rw [hbufeq]
        have : pre ++ l.length :: (l ++ (nameWire ls ++ post)) =
            (pre ++ [l.length]) ++ (l ++ (nameWire ls ++ post)) := by simp
        rw [this]
        have hlen : (pre ++ [l.length]).length = pre.length + 1 := by simp
        rw [← hlen, List.drop_left]
      have hslice : pySlice (pre ++ nameWire (l :: ls) ++ post) (pre.length + 1)
          (pre.length + 1 + l.length) = l := by
        unfold pySlice
        rw [hdrop]
        have : pre.length + 1 + l.length - (pre.length + 1) = l.length := by omega
        rw [this, List.take_left]
      have hd : pyDecode (pySlice (pre ++ nameWire (l :: ls) ++ post) (pre.length + 1)
          (pre.length + 1 + l.length)) = .ok l := by
        rw [hslice]
        unfold pyDecode
        rw [if_pos (utf8Valid_of_ascii l hascii)]
      rw [parseF_step_label_ok f hg hs hc hd]
      have hv' : ∀ x ∈ ls, 1 ≤ x.length ∧ x.length ≤ 63 ∧ ∀ b ∈ x, b < 128 :=
        fun x hx => hv x (List.mem_cons_of_mem l hx)
      have hih := ih (pre ++ l.length :: l) post f hv'
        (by simp only [List.length_cons] at hf; omega)
      have hbufeq2 : (pre ++ l.length :: l) ++ nameWire ls ++ post =
          pre ++ nameWire (l :: ls) ++ post := by
        simp [nameWire]
      have hptr : (pre ++ l.length :: l).length = pre.length + l.length + 1 := by
        simp; omega
      rw [hbufeq2, hptr] at hih
      rw [hih]
      have hlenw : (nameWire (l :: ls)).length = l.length + 1 + (nameWire ls).length := by
        simp [nameWire]; omega
      simp only [Except.map]
      rw [hlenw]
      congr 2
      omega

example : compressedTestBuf.length = 53 := by decide

example : DNSquestion.from_message compressedTestBuf 12 =
    .ok (⟨[[97, 98, 99],
           [108, 111, 110, 103, 97, 115, 115, 100, 111, 109, 97, 105, 110, 110, 97, 109, 101],
           [99, 111, 109]], 1, 1⟩, 43) := by decide

example : DNSquestion.from_message compressedTestBuf 43 =
    .ok (⟨[[100, 101, 102],
           [108, 111, 110, 103, 97, 115, 115, 100, 111, 109, 97, 105, 110, 110, 97, 109, 101]],
          1, 1⟩, 54) := by decide

example : (DNSheader.pack ⟨0, 0, 0, 0, 0, 0, 0, 0, 0, 0, 0, 0, 0⟩).bind DNSheader.from_message =
    .ok ⟨0, 1, 0, 0, 0, 0, 0, 0, 0, 0, 0, 0, 0⟩ := by decide

example : (DNSheader.pack ⟨7, 1, 2, 1, 1, 1, 1, 5, 3, 9, 4, 2, 6⟩).bind DNSheader.from_message =
    .ok ⟨7, 1, 2, 1, 1, 1, 1, 5, 4, 9, 9, 2, 6⟩ := by decide

namespace Dnsmessage

example : question_pack (question_from_message []) = .ok fixedQuestionBytes := by decide

example : answer_pack (answer_from_message []) = .ok fixedAnswerBytes := by decide

end Dnsmessage

example : (Dnsmessage.from_message exampleQuery).bind Dnsmessage.pack =
    .ok ([4, 210, 129, 240, 0, 1, 0, 1, 0, 0, 0, 0] ++
      Dnsmessage.fixedQuestionBytes ++ Dnsmessage.fixedAnswerBytes) := by decide

set_option synthInstance.maxHeartbeats 1000000 in
set_option synthInstance.maxSize 2048 in
set_option maxHeartbeats 1000000 in
/-- Bit-packing byte 3 and extracting its fields, for all in-range flag
values (checked exhaustively over the 256 combinations). -/
theorem byte3_fields : ∀ qi < 2, ∀ op < 16, ∀ aa < 2, ∀ tc < 2, ∀ rd < 2,
    ((((0 ||| (qi <<< 7)) ||| (op <<< 3)) ||| (aa <<< 2)) ||| (tc <<< 1)) ||| rd ≤ 255 ∧
    (0b01111000 &&& (((((0 ||| (qi <<< 7)) ||| (op <<< 3)) ||| (aa <<< 2)) ||| (tc <<< 1)) ||| rd)) >>> 3 = op ∧
    (0b00000100 &&& (((((0 ||| (qi <<< 7)) ||| (op <<< 3)) ||| (aa <<< 2)) ||| (tc <<< 1)) ||| rd)) >>> 2 = aa ∧
    (0b00000010 &&& (((((0 ||| (qi <<< 7)) ||| (op <<< 3)) ||| (aa <<< 2)) ||| (tc <<< 1)) ||| rd)) >>> 1 = tc ∧
    0b00000001 &&& (((((0 ||| (qi <<< 7)) ||| (op <<< 3)) ||| (aa <<< 2)) ||| (tc <<< 1)) ||| rd) = rd := by
  decide

set_option synthInstance.maxHeartbeats 1000000 in
set_option synthInstance.maxSize 2048 in
set_option maxHeartbeats 1000000 in
/-- Bit-packing byte 4 and extracting its fields, for all in-range values
(checked exhaustively over the 256 combinations). -/
theorem byte4_fields : ∀ ra < 2, ∀ z < 8, ∀ rc < 16,
    ((0 ||| (ra <<< 7)) ||| (z <<< 4)) ||| rc ≤ 255 ∧
    (0b10000000 &&& (((0 ||| (ra <<< 7)) ||| (z <<< 4)) ||| rc)) >>> 7 = ra ∧
    (0b01110000 &&& (((0 ||| (ra <<< 7)) ||| (z <<< 4)) ||| rc)) >>> 4 = z := by
  decide

/-- Packing a header whose fields are within their bit widths and decoding
the bytes again (src/app/dns_message/dns_header.py) returns the header with
the query indicator forced to 1, the response code recomputed from the
opcode, and the answer count replaced by the question count; every other
field, including the reserved Z bits, round-trips. -/
theorem header_pack_unpack (h : DNSheader)
    (hpid : h.packet_identifier < 65536) (hqi : h.query_indicator ≤ 1)
    (hop : h.opcode ≤ 15) (haa : h.authoritative_answer ≤ 1) (htc : h.truncation ≤ 1)
    (hrd : h.recursion_desired ≤ 1) (hra : h.recursion_available ≤ 1)
    (hz : h.z_reserved ≤ 7) (hrc : h.response_code ≤ 15)
    (hqd : h.question_count < 65536) (han : h.answer_count < 65536)
    (hns : h.auth_rec_count < 65536) (har : h.additional_rec_count < 65536) :
    (DNSheader.pack h).bind DNSheader.from_message =
      .ok { h with query_indicator := 1,
                   response_code := if h.opcode = 0 then 0 else 4,
                   answer_count := h.question_count } := by
  obtain ⟨hle3, hexop, hexaa, hextc, hexrd⟩ :=
    byte3_fields h.query_indicator (by omega) h.opcode (by omega)
      h.authoritative_answer (by omega) h.truncation (by omega)
      h.recursion_desired (by omega)
  obtain ⟨hle4, hexra, hexz⟩ :=
    byte4_fields h.recursion_available (by omega) h.z_reserved (by omega)
      h.response_code (by omega)
  simp only [DNSheader.pack]
  rw [if_neg (by omega)]
  rw [if_neg (by omega)]
  rw [if_pos ⟨hpid, hqd, han, hns, har⟩]
  simp only [Except.bind, DNSheader.from_message]
  rw [hexop, hexaa, hextc, hexrd, hexra, hexz]
  simp only [Except.ok.injEq, DNSheader.mk.injEq, and_true, true_and]
  omega

/-- ORing the QR bit onto a small value keeps a byte. -/
theorem or128_le {x : Nat} (hx : x ≤ 1) : 0b10000000 ||| x ≤ 255 := by
  interval_cases x <;> decide

/-- ORing the RCODE mask onto a small value keeps a byte. -/
theorem or240_le {x : Nat} (hx : x ≤ 15) : 0b11110000 ||| x ≤ 255 := by
  interval_cases x <;> decide

namespace Dnsmessage

/-- The stubbed question always packs to the fixed question bytes. -/
theorem question_pack_fixed (msg : List Nat) :
    question_pack (question_from_message msg) = .ok fixedQuestionBytes := by
  simp only [question_from_message]
  decide

/-- The stubbed answer always packs to the fixed answer bytes. -/
theorem answer_pack_fixed (msg : List Nat) :
    answer_pack (answer_from_message msg) = .ok fixedAnswerBytes := by
  simp only [answer_from_message]
  decide

/-- Decoding any buffer of at least 12 bytes with `DNSmessage.from_message`
and re-encoding with `DNSmessage.pack` (src/app/dnsmessage.py) produces: the
input id; byte 3 equal to `0x80 | RD`, so the QR bit of the response is
always set; byte 4 equal to `0xF0 | RCODE`; the input question count copied
verbatim; answer count 1; the input authority/additional counts; then the
fixed hardcoded question and answer records for `codecrafters.io`. -/
theorem from_message_pack (b0 b1 b2 b3 b4 b5 b6 b7 b8 b9 b10 b11 : Nat) (rest : List Nat)
    (h0 : b0 < 256) (h1 : b1 < 256) (h4 : b4 < 256) (h5 : b5 < 256)
    (h8 : b8 < 256) (h9 : b9 < 256) (h10 : b10 < 256) (h11 : b11 < 256) :
    (from_message (b0 :: b1 :: b2 :: b3 :: b4 :: b5 :: b6 :: b7 :: b8 :: b9 :: b10 :: b11 :: rest)).bind
        pack =
      .ok ([b0, b1, 0b10000000 ||| (0b00000001 &&& b2), 0b11110000 ||| (0b00001111 &&& b3),
            b4, b5, 0, 1, b8, b9, b10, b11] ++ fixedQuestionBytes ++ fixedAnswerBytes) := by
  have hrd : 0b00000001 &&& b2 ≤ 1 := Nat.and_le_left
  have hrc : 0b00001111 &&& b3 ≤ 15 := Nat.and_le_left
  simp only [from_message, header_from_message, Except.map, Except.bind, pack, bind]
  simp only [header_pack]
  rw [if_neg (by have := or128_le hrd; omega)]
  rw [if_neg (by have := or240_le hrc; omega)]
  rw [if_pos ⟨by omega, by omega, by omega, by omega, by omega⟩]
  simp only [Except.bind, question_pack_fixed, answer_pack_fixed]
  simp only [fixedQuestionBytes, fixedAnswerBytes, List.cons_append, List.nil_append,
    List.append_assoc, Except.ok.injEq, List.cons.injEq, and_true, true_and]
  repeat' apply And.intro
  all_goals omega

end Dnsmessage

/-- C1: a self-cycle pointer (the two bytes `C0 00` at offset 0 point back to
offset 0) does not fail with any `MalformedName` condition: `parse_dns_labels`
returns the bogus result `(['\x00\x00'], 3)` and `DNSquestion.from_message`
returns a question with that name — the claimed guard does not exist in the
code. -/
theorem claim1_self_pointer_returns_result :
    parse_dns_labels [192, 0, 0] 0 = .ok ([[0, 0]], 3) ∧
    DNSquestion.from_message [192, 0, 0] 0 = .ok (⟨[[0, 0]], 1, 1⟩, 7) := by
  constructor
  · decide
  · decide

/-- Every label contributes at least its length byte to the wire name. -/
theorem nameWire_length_ge (L : List (List Nat)) : L.length ≤ (nameWire L).length := by
  induction L with
  | nil => simp [nameWire]
  | cons l ls ih =>
    simp only [nameWire, List.length_cons, List.length_append]
    omega

set_option linter.unusedVariables false in
/-- C2: for labels of 1–63 ASCII bytes whose wire encoding is at most 255
bytes, the name encoder of `DNSquestion.pack` succeeds and `parse_dns_labels`
decodes the encoding at offset 0 back to exactly the same labels together
with the length of the encoding. -/
theorem claim2_name_roundtrip (L : List (List Nat))
    (hv : ∀ l ∈ L, 1 ≤ l.length ∧ l.length ≤ 63 ∧ ∀ b ∈ l, b < 128)
    (hsize : (nameWire L).length ≤ 255) :
    nameBytes L = .ok (nameWire L) ∧
    parse_dns_labels (nameWire L) 0 = .ok (L, (nameWire L).length) := by
  have hlab : ∀ l ∈ L, l.length ≤ 255 := fun l hl => by
    have := (hv l hl).2.1
    omega
  have hlen : L.length ≤ (nameWire L).length := nameWire_length_ge L
  constructor
  · exact nameBytes_eq_wire L hlab
  · have := parseF_nameWire L [] [] ((nameWire L).length + 1) hv (by omega)
    simpa [parse_dns_labels] using this

/-- Witness for C2 at the concrete name `abc.io`. -/
theorem claim2_witness :
    nameBytes [[97, 98, 99], [105, 111]] = .ok (nameWire [[97, 98, 99], [105, 111]]) ∧
    parse_dns_labels (nameWire [[97, 98, 99], [105, 111]]) 0 =
      .ok ([[97, 98, 99], [105, 111]], (nameWire [[97, 98, 99], [105, 111]]).length) :=
  claim2_name_roundtrip [[97, 98, 99], [105, 111]] (by decide) (by decide)

/-- C3 counterexample: a 12-byte input whose header claims question count 2
decodes and re-encodes to a message whose header bytes 4–5 still say 2, while
the output contains exactly one serialized question record (the fixed
question bytes) — so the written count does not equal the number of question
records serialized (which is 1). -/
theorem claim3_counterexample :
    (Dnsmessage.from_message [0, 0, 0, 0, 0, 2, 0, 0, 0, 0, 0, 0]).bind Dnsmessage.pack =
      .ok ([0, 0, 128, 240, 0, 2, 0, 1, 0, 0, 0, 0] ++
        Dnsmessage.fixedQuestionBytes ++ Dnsmessage.fixedAnswerBytes) ∧
    (2 : Nat) ≠ 1 := by
  constructor
  · decide
  · decide

/-- C3 amended: `DNSmessage.pack` copies the header's stored counts verbatim.
The answer count written is always 1 (bytes 6–7), which happens to equal the
single answer record serialized because `DNSheader.from_message` hardcodes it;
the question count written (bytes 4–5) is the input wire's value, not
recomputed from the single question record that is always serialized. -/
theorem claim3_counts_copied (b0 b1 b2 b3 b4 b5 b6 b7 b8 b9 b10 b11 : Nat) (rest : List Nat)
    (h0 : b0 < 256) (h1 : b1 < 256) (h4 : b4 < 256) (h5 : b5 < 256)
    (h8 : b8 < 256) (h9 : b9 < 256) (h10 : b10 < 256) (h11 : b11 < 256) :
    ∃ R, (Dnsmessage.from_message
          (b0 :: b1 :: b2 :: b3 :: b4 :: b5 :: b6 :: b7 :: b8 :: b9 :: b10 :: b11 :: rest)).bind
        Dnsmessage.pack = .ok R ∧
      R.get? 6 = some 0 ∧ R.get? 7 = some 1 ∧ R.get? 4 = some b4 ∧ R.get? 5 = some b5 := by
  refine ⟨_, Dnsmessage.from_message_pack b0 b1 b2 b3 b4 b5 b6 b7 b8 b9 b10 b11 rest
    h0 h1 h4 h5 h8 h9 h10 h11, ?_, ?_, ?_, ?_⟩ <;> rfl

/-- Witness for C3 amended at a concrete 12-byte header. -/
theorem claim3_witness :
    ∃ R, (Dnsmessage.from_message [5, 6, 7, 8, 9, 10, 11, 12, 13, 14, 15, 16]).bind
        Dnsmessage.pack = .ok R ∧
      R.get? 6 = some 0 ∧ R.get? 7 = some 1 ∧ R.get? 4 = some 9 ∧ R.get? 5 = some 10 :=
  claim3_counts_copied 5 6 7 8 9 10 11 12 13 14 15 16 [] (by decide) (by decide) (by decide)
    (by decide) (by decide) (by decide) (by decide) (by decide)

/-- C4 counterexample: the all-zero header (fields within their widths, query
indicator 0) decodes after packing with query indicator 1 — a non-Z field
fails to round-trip. -/
theorem claim4_counterexample :
    (DNSheader.pack ⟨0, 0, 0, 0, 0, 0, 0, 0, 0, 0, 0, 0, 0⟩).bind DNSheader.from_message =
      .ok ⟨0, 1, 0, 0, 0, 0, 0, 0, 0, 0, 0, 0, 0⟩ ∧
    (1 : Nat) ≠ 0 := by
  constructor
  · decide
  · decide

/-- C4 amended: packing a header whose fields are within their bit widths and
decoding the bytes again returns the header with the query indicator forced
to 1, the response code recomputed from the opcode (0 if opcode = 0, else 4),
and the answer count replaced by the question count; every other field,
including the reserved Z bits, round-trips. -/
theorem claim4_roundtrip (h : DNSheader)
    (hpid : h.packet_identifier < 65536) (hqi : h.query_indicator ≤ 1)
    (hop : h.opcode ≤ 15) (haa : h.authoritative_answer ≤ 1) (htc : h.truncation ≤ 1)
    (hrd : h.recursion_desired ≤ 1) (hra : h.recursion_available ≤ 1)
    (hz : h.z_reserved ≤ 7) (hrc : h.response_code ≤ 15)
    (hqd : h.question_count < 65536) (han : h.answer_count < 65536)
    (hns : h.auth_rec_count < 65536) (har : h.additional_rec_count < 65536) :
    (DNSheader.pack h).bind DNSheader.from_message =
      .ok { h with query_indicator := 1,
                   response_code := if h.opcode = 0 then 0 else 4,
                   answer_count := h.question_count } :=
  header_pack_unpack h hpid hqi hop haa htc hrd hra hz hrc hqd han hns har

/-- Witness for C4 amended at a concrete header with every flag set and
opcode 2. -/
theorem claim4_witness :
    (DNSheader.pack ⟨7, 1, 2, 1, 1, 1, 1, 5, 3, 9, 4, 2, 6⟩).bind DNSheader.from_message =
      .ok { (⟨7, 1, 2, 1, 1, 1, 1, 5, 3, 9, 4, 2, 6⟩ : DNSheader) with
        query_indicator := 1,
        response_code := if (2 : Nat) = 0 then 0 else 4,
        answer_count := 9 } :=
  claim4_roundtrip ⟨7, 1, 2, 1, 1, 1, 1, 5, 3, 9, 4, 2, 6⟩ (by decide) (by decide) (by decide)
    (by decide) (by decide) (by decide) (by decide) (by decide) (by decide) (by decide)
    (by decide) (by decide) (by decide)

/-- C5 counterexample: on the repository's own compressed two-question test
message, the second question (at offset 43) decodes to the name
`["def", "longassdomainname"]`, not to `["def", "longassdomainname", "com"]`
as the claim states — after a pointer exactly one label is taken from the
jump target. -/
theorem claim5_counterexample :
    ((DNSquestion.from_message compressedTestBuf 43).map fun r => r.1.name) =
      .ok [[100, 101, 102],
           [108, 111, 110, 103, 97, 115, 115, 100, 111, 109, 97, 105, 110, 110, 97, 109, 101]] ∧
    [[100, 101, 102],
     [108, 111, 110, 103, 97, 115, 115, 100, 111, 109, 97, 105, 110, 110, 97, 109, 101]] ≠
    [[100, 101, 102],
     [108, 111, 110, 103, 97, 115, 115, 100, 111, 109, 97, 105, 110, 110, 97, 109, 101],
     [99, 111, 109]] := by
  constructor
  · decide
  · decide

/-- C5 amended: on the compressed two-question test message the first
question decodes to `["abc", "longassdomainname", "com"]` ending at offset
43, and the second question decodes to `["def", "longassdomainname"]` ending
at offset 54: following a pointer extracts exactly one label from the jump
target, after which the cursor resumes two bytes past the pointer and the
name ends because the byte there is zero. -/
theorem claim5_one_label_after_pointer :
    DNSquestion.from_message compressedTestBuf 12 =
      .ok (⟨[[97, 98, 99],
             [108, 111, 110, 103, 97, 115, 115, 100, 111, 109, 97, 105, 110, 110, 97, 109, 101],
             [99, 111, 109]], 1, 1⟩, 43) ∧
    DNSquestion.from_message compressedTestBuf 43 =
      .ok (⟨[[100, 101, 102],
             [108, 111, 110, 103, 97, 115, 115, 100, 111, 109, 97, 105, 110, 110, 97, 109, 101]],
            1, 1⟩, 54) := by
  constructor
  · decide
  · decide

/-- C6 counterexample: on the 19-byte buffer of the claim,
`parse_dns_labels` at the pointer's offset 17 does not return
`(["abc"], 19)`. -/
theorem claim6_counterexample :
    parse_dns_labels pointerTestBuf 17 ≠ .ok ([[97, 98, 99]], 19) := by
  decide

/-- C6 amended: decoding at offset 17 extracts `"abc"` from the jump target
but then keeps scanning for a zero terminator at offset 19 (two bytes past
the pointer) and fails with an `IndexError` because the buffer ends there;
the cursor does not stop two bytes past the pointer.  Decoding at offset 12
returns `(["abc"], 17)`. -/
theorem claim6_pointer_offset :
    parse_dns_labels pointerTestBuf 17 = .error .indexError ∧
    parse_dns_labels pointerTestBuf 12 = .ok ([[97, 98, 99]], 17) := by
  constructor
  · decide
  · decide

/-- C7 counterexample: for the concrete query for `www.example.com`, the
decoded message's answer name is the hardcoded `codecrafters.io`, not the
question's name `www.example.com`. -/
theorem claim7_counterexample :
    ((Dnsmessage.from_message exampleQuery).map fun m => m.answer.name) =
      .ok Dnsmessage.ccio ∧
    Dnsmessage.ccio ≠ [[119, 119, 119], [101, 120, 97, 109, 112, 108, 101], [99, 111, 109]] := by
  constructor
  · decide
  · decide

/-- C7 amended: for every decodable input (at least 12 bytes), the
`from_message`/`pack` pipeline of src/app/dnsmessage.py — which has no
upstream-resolver path at all — produces a 64-byte response whose QR bit
(bit 7 of byte 2) is always set, whose answer count bytes are `00 01`, and
whose last 31 bytes are exactly one answer record for the hardcoded name
`codecrafters.io` with type A, class IN, TTL 60 and rdata `08 08 08 08` —
regardless of the question asked. -/
theorem claim7_hardcoded_answer (b0 b1 b2 b3 b4 b5 b6 b7 b8 b9 b10 b11 : Nat)
    (rest : List Nat)
    (h0 : b0 < 256) (h1 : b1 < 256) (h4 : b4 < 256) (h5 : b5 < 256)
    (h8 : b8 < 256) (h9 : b9 < 256) (h10 : b10 < 256) (h11 : b11 < 256) :
    ∃ R, (Dnsmessage.from_message
          (b0 :: b1 :: b2 :: b3 :: b4 :: b5 :: b6 :: b7 :: b8 :: b9 :: b10 :: b11 :: rest)).bind
        Dnsmessage.pack = .ok R ∧
      R.length = 64 ∧
      (∃ b, R.get? 2 = some b ∧ b.testBit 7 = true) ∧
      R.get? 6 = some 0 ∧ R.get? 7 = some 1 ∧
      R.drop 33 = Dnsmessage.fixedAnswerBytes := by
  refine ⟨_, Dnsmessage.from_message_pack b0 b1 b2 b3 b4 b5 b6 b7 b8 b9 b10 b11 rest
    h0 h1 h4 h5 h8 h9 h10 h11, ?_, ?_, ?_, ?_, ?_⟩
  · rfl
  · refine ⟨0b10000000 ||| (0b00000001 &&& b2), rfl, ?_⟩
    have hrd : 0b00000001 &&& b2 ≤ 1 := Nat.and_le_left
    have : 0b00000001 &&& b2 = 0 ∨ 0b00000001 &&& b2 = 1 := by omega
    rcases this with h | h <;> rw [h] <;> decide
  · rfl
  · rfl
  · rfl

/-- Witness for C7 amended at the concrete query for `www.example.com`. -/
theorem claim7_witness :
    ∃ R, (Dnsmessage.from_message
          (4 :: 210 :: 1 :: 0 :: 0 :: 1 :: 0 :: 0 :: 0 :: 0 :: 0 :: 0 ::
           [3, 119, 119, 119, 7, 101, 120, 97, 109, 112, 108, 101, 3, 99, 111, 109, 0,
            0, 1, 0, 1])).bind Dnsmessage.pack = .ok R ∧
      R.length = 64 ∧
      (∃ b, R.get? 2 = some b ∧ b.testBit 7 = true) ∧
      R.get? 6 = some 0 ∧ R.get? 7 = some 1 ∧
      R.drop 33 = Dnsmessage.fixedAnswerBytes :=
  claim7_hardcoded_answer 4 210 1 0 0 1 0 0 0 0 0 0
    [3, 119, 119, 119, 7, 101, 120, 97, 109, 112, 108, 101, 3, 99, 111, 109, 0, 0, 1, 0, 1]
    (by decide) (by decide) (by decide) (by decide) (by decide) (by decide) (by decide)
    (by decide)

/-- C8 counterexample: for a question whose wire bytes carry type 2 and
class 3 after the name `a`, decode returns type 1 and class 1 (with the
cursor correctly moved 4 bytes past the name's end), and the wire 16-bit
value after the name is 2 ≠ 1. -/
theorem claim8_counterexample :
    ((DNSquestion.from_message [1, 97, 0, 0, 2, 0, 3] 0).map
        fun r => (r.1.record_type, r.1.clazz, r.2)) = .ok (1, 1, 7) ∧
    bytesBE (pySlice [1, 97, 0, 0, 2, 0, 3] 3 5) = 2 ∧
    (1 : Nat) ≠ 2 := by
  refine ⟨?_, ?_, ?_⟩ <;> decide

/-- C8 amended: whenever `DNSquestion.from_message` succeeds, the returned
record type and class are the hardcoded constants 1 (A) and 1 (IN) — the two
16-bit wire fields after the name are skipped, not read — and the returned
offset is exactly 4 bytes past the end of the name (i.e. past the class
field). -/
theorem claim8_hardcoded_type_class (buf : List Nat) (ptr : Nat) (q : DNSquestion) (p : Nat)
    (h : DNSquestion.from_message buf ptr = .ok (q, p)) :
    q.record_type = 1 ∧ q.clazz = 1 ∧
    ∃ pe, fromMessageLoopF (buf.length + 1) buf ptr = .ok (q.name, pe) ∧ p = pe + 4 := by
  unfold DNSquestion.from_message at h
  cases hl : fromMessageLoopF (buf.length + 1) buf ptr with
  | error e => rw [hl] at h; exact Except.noConfusion h
  | ok r =>
    rw [hl] at h
    simp only [Except.map] at h
    injection h with h2
    have hq : q = ⟨r.1, 1, 1⟩ := (congrArg Prod.fst h2).symm
    have hp : p = r.2 + 4 := (congrArg Prod.snd h2).symm
    subst hq
    subst hp
    exact ⟨rfl, rfl, r.2, rfl, rfl⟩

/-- Witness for C8 amended at the concrete question buffer `a`, type 2,
class 3. -/
theorem claim8_witness :
    (⟨[[97]], 1, 1⟩ : DNSquestion).record_type = 1 ∧
    (⟨[[97]], 1, 1⟩ : DNSquestion).clazz = 1 ∧
    ∃ pe, fromMessageLoopF ([1, 97, 0, 0, 2, 0, 3].length + 1) [1, 97, 0, 0, 2, 0, 3] 0 =
      .ok ((⟨[[97]], 1, 1⟩ : DNSquestion).name, pe) ∧ 7 = pe + 4 :=
  claim8_hardcoded_type_class [1, 97, 0, 0, 2, 0, 3] 0 ⟨[[97]], 1, 1⟩ 7 (by decide)

/-- C9: decoding any buffer of fewer than 12 bytes with
`DNSheader.from_message` fails with the `TruncatedHeader` condition (the
`struct.error` raised by unpacking a short buffer) instead of returning a
header. -/
theorem claim9_truncated_header (msg : List Nat) (h : msg.length < 12) :
    DNSheader.from_message msg = .error .truncatedHeader := by
  rcases msg with _ | ⟨x0, _ | ⟨x1, _ | ⟨x2, _ | ⟨x3, _ | ⟨x4, _ | ⟨x5, _ | ⟨x6, _ | ⟨x7,
    _ | ⟨x8, _ | ⟨x9, _ | ⟨x10, _ | ⟨x11, rest⟩⟩⟩⟩⟩⟩⟩⟩⟩⟩⟩⟩
  all_goals first
    | rfl
    | (exfalso; simp only [List.length_cons] at h; omega)

/-- Witness for C9 at the empty buffer. -/
theorem claim9_witness :
    ([] : List Nat).length < 12 ∧ DNSheader.from_message [] = .error .truncatedHeader :=
  ⟨by decide, claim9_truncated_header [] (by decide)⟩

/-- C10 counterexample: on the buffer `01 FF 00` the parser neither returns
a result nor fails with an out-of-bounds indexing error: the label byte `FF`
is not valid UTF-8, so `bytes.decode()` fails and the function raises a
decoding error — a third outcome the claim's dichotomy omits. -/
theorem claim10_counterexample :
    parse_dns_labels [1, 255, 0] 0 = .error .decodeError ∧
    PyErr.decodeError ≠ PyErr.indexError ∧
    PyErr.decodeError ≠ PyErr.outOfFuel := by
  refine ⟨?_, ?_, ?_⟩ <;> decide

/-- C10 amended: `parse_dns_labels` always terminates — with any fuel
exceeding the bytes remaining at the cursor the fuel-indexed loop computes
the same value as `parse_dns_labels` and never exhausts its fuel, because
every iteration strictly advances the cursor (by `strlen + 1` for an
ordinary label, by 2 for a compression pointer, which contributes at most
one label from the jump target) and must read in bounds to continue.  The
outcome is a result, an out-of-bounds indexing error, or a label-decoding
error. -/
theorem claim10_terminates (buf : List Nat) (ptr fuel : Nat)
    (h : buf.length - ptr < fuel) :
    parseDnsLabelsF fuel buf ptr = parse_dns_labels buf ptr ∧
    parse_dns_labels buf ptr ≠ .error .outOfFuel := by
  constructor
  · exact parseDnsLabelsF_stable fuel (buf.length + 1) buf ptr h (by omega)
  · exact parseDnsLabelsF_ne_outOfFuel (buf.length + 1) buf ptr (by omega)

/-- Witness for C10 at a concrete two-byte buffer and fuel 5. -/
theorem claim10_witness :
    parseDnsLabelsF 5 [3, 97] 0 = parse_dns_labels [3, 97] 0 ∧
    parse_dns_labels [3, 97] 0 ≠ .error .outOfFuel :=
  claim10_terminates [3, 97] 0 5 (by decide)
